import Mathlib

/-!
Shallow embedding of `src/notificationService.cpp`, a small notification
service demonstrating the SOLID principles.

Side effects are modelled as traces: every effectful operation returns the
list of lines it writes to standard output, in order.  `std::unique_ptr`
members are modelled as `Option` values (a `unique_ptr` may be null); the
constructions actually performed by `main` are embedded as concrete values.
-/

namespace NotificationSvc

/-- `MessageFormatter::formatMessage`: builds
`"Dear " + recipient + ", " + content`.  The appends are grouped exactly as
C++ `operator+` associates (left to right). -/
def formatMessage (recipient content : String) : String :=
  (("Dear " ++ recipient) ++ ", ") ++ content

/-- The two concrete `INotifier` implementations in the source:
`EmailNotifier` and `SMSNotifier`. -/
inductive Notifier where
  | email
  | sms
deriving DecidableEq, Repr

/-- The fixed label each notifier variant writes before the message. -/
def Notifier.label : Notifier → String
  | .email => "Sending Email: "
  | .sms => "Sending SMS: "

/-- `EmailNotifier::send` / `SMSNotifier::send`: writes one line
`label << message` to `std::cout`.  The result is the trace of lines
written. -/
def Notifier.send : Notifier → String → List String
  | .email, message => ["Sending Email: " ++ message]
  | .sms, message => ["Sending SMS: " ++ message]

/-- The free function `notifyUser(INotifier&, const std::string&)`: calls
`notifier.send(message)`. -/
def notifyUser (notifier : Notifier) (message : String) : List String :=
  notifier.send message

/-- The concrete `ILogger` implementations in the source: only
`ConsoleLogger`. -/
inductive Logger where
  | console
deriving DecidableEq, Repr

/-- `ConsoleLogger::log`: writes one line `"Logging: " << info` to
`std::cout`.  The result is the trace of lines written. -/
def Logger.log : Logger → String → List String
  | .console, info => ["Logging: " ++ info]

/-- A program state containing a logger object and the stdout line buffer.
Used to express that `send` touches no logger: the C++ `send` bodies
mention only `std::cout`. -/
structure World where
  theLogger : Logger
  out : List String
deriving DecidableEq, Repr

/-- Running `notifier.send(message)` in a world that also contains a logger
object: the only effect of the C++ body is appending its line to stdout. -/
def Notifier.sendInWorld (n : Notifier) (message : String) (w : World) : World :=
  { w with out := w.out ++ n.send message }

/-- `NotificationService`: holds `std::unique_ptr<INotifier>` and
`std::unique_ptr<ILogger>` members (nullable, hence `Option`), plus a
`MessageFormatter` member which carries no data.  The fields are set by the
constructor and the class has no other member functions that assign them. -/
structure NotificationService where
  notifier : Option Notifier
  logger : Option Logger
deriving DecidableEq, Repr

/-- `NotificationService::sendNotification`: formats the message, calls
`notifier->send(message)`, then `logger->log("Notification sent to " +
recipient)`.  Dereferencing a null `unique_ptr` is undefined behaviour in
C++; the embedding returns `none` in that case, and `some` of the stdout
trace otherwise. -/
def NotificationService.sendNotification (s : NotificationService)
    (recipient content : String) : Option (List String) :=
  match s.notifier, s.logger with
  | some n, some l =>
    let message := formatMessage recipient content
    some (n.send message ++ l.log ("Notification sent to " ++ recipient))
  | _, _ => none

/-- The first service constructed by `main`:
`NotificationService(std::make_unique<EmailNotifier>(), std::make_unique<ConsoleLogger>())`. -/
def mainService1 : NotificationService := ⟨some .email, some .console⟩

/-- The second service constructed by `main`:
`NotificationService(std::make_unique<SMSNotifier>(), std::make_unique<ConsoleLogger>())`. -/
def mainService2 : NotificationService := ⟨some .sms, some .console⟩

/-- The stdout trace of `main`: the two `sendNotification` calls in order. -/
def mainOutput : Option (List String) := do
  let o1 ← mainService1.sendNotification "John" "Your order has been shipped!"
  let o2 ← mainService2.sendNotification "Alice" "Your appointment is confirmed!"
  pure (o1 ++ o2)

/-- `main` ends with `return 0`. -/
def mainExitCode : Nat := 0

theorem string_append_assoc (a b c : String) :
    (a ++ b) ++ c = a ++ (b ++ c) := by
  cases a with | mk as =>
  cases b with | mk bs =>
  cases c with | mk cs =>
  show String.mk ((as ++ bs) ++ cs) = String.mk (as ++ (bs ++ cs))
  rw [List.append_assoc]

/-- Claim C1: for every recipient `r` and content `c`,
`sendNotification(r, c)` on a service holding any notifier `n` and any
logger `l` produces exactly two output lines in order: first the owned
notifier dispatch of the formatted message `"Dear " ++ r ++ ", " ++ c`
under its label, then the logger record of
`"Notification sent to " ++ r` under the `"Logging: "` label. -/
theorem sendNotification_two_lines (n : Notifier) (l : Logger) (r c : String) :
    (NotificationService.mk (some n) (some l)).sendNotification r c =
      some [n.label ++ ("Dear " ++ (r ++ (", " ++ c))),
            "Logging: " ++ ("Notification sent to " ++ r)] := by
  cases l
  cases n <;>
    simp [NotificationService.sendNotification, Notifier.send, Logger.log,
      formatMessage, Notifier.label, string_append_assoc]

/-- Claim C2: for every pair of strings `r` and `c` (including empty
strings and strings containing `"Dear"` or commas), `formatMessage r c`
returns exactly `"Dear " ++ r ++ ", " ++ c`, deterministically and
totally. -/
theorem formatMessage_spec (r c : String) :
    formatMessage r c = "Dear " ++ (r ++ (", " ++ c)) := by
  simp [formatMessage, string_append_assoc]

/-- Claim C3: the full run of `main` prints exactly four lines in order
(email dispatch to John, its log line, SMS dispatch to Alice, its log
line) and exits with code 0. -/
theorem main_output_and_exit :
    mainOutput = some
      ["Sending Email: Dear John, Your order has been shipped!",
       "Logging: Notification sent to John",
       "Sending SMS: Dear Alice, Your appointment is confirmed!",
       "Logging: Notification sent to Alice"] ∧
    mainExitCode = 0 := by
  constructor
  · rfl
  · rfl

/-- Claim C4: for every notifier variant and message `m`, `send m` writes
exactly one line, namely the variant label followed by `m`, and running it
in a world that also contains a logger leaves that logger unchanged,
appending only that one line to stdout. -/
theorem send_one_line_logger_unchanged (n : Notifier) (m : String) :
    n.send m = [n.label ++ m] ∧
    ∀ w : World, (n.sendInWorld m w).theLogger = w.theLogger ∧
      (n.sendInWorld m w).out = w.out ++ [n.label ++ m] := by
  cases n <;>
    simp [Notifier.send, Notifier.label, Notifier.sendInWorld]

/-- Claim C5: for every info string `i`, `ConsoleLogger::log i` writes
exactly one line, `"Logging: " ++ i`. -/
theorem consoleLogger_log_one_line (i : String) :
    Logger.console.log i = ["Logging: " ++ i] := by
  rfl

/-- Claim C6: for every logger `l`, recipient `r` and content `c`, the two
services that differ only in the injected notifier variant produce outputs
that differ only in the label of the first (dispatch) line; the rest of
the first line and the whole second (logger) line coincide. -/
theorem notifier_swap_frame (l : Logger) (r c : String) :
    (NotificationService.mk (some .email) (some l)).sendNotification r c =
      some ["Sending Email: " ++ formatMessage r c,
            "Logging: " ++ ("Notification sent to " ++ r)] ∧
    (NotificationService.mk (some .sms) (some l)).sendNotification r c =
      some ["Sending SMS: " ++ formatMessage r c,
            "Logging: " ++ ("Notification sent to " ++ r)] := by
  cases l
  simp [NotificationService.sendNotification, Notifier.send, Logger.log,
    formatMessage, string_append_assoc]

/-- Claim C7: every `NotificationService` the program constructs holds
both a notifier and a logger (both non-null), and any service constructed
with both present always has a valid notifier and logger to dispatch
through: `sendNotification` is defined for all inputs.  The embedding has
no operation that reassigns the fields after construction. -/
theorem notificationService_non_null :
    mainService1.notifier.isSome ∧ mainService1.logger.isSome ∧
    mainService2.notifier.isSome ∧ mainService2.logger.isSome ∧
    ∀ (n : Notifier) (l : Logger) (r c : String),
      ((NotificationService.mk (some n) (some l)).sendNotification r c).isSome := by
  refine ⟨rfl, rfl, rfl, rfl, ?_⟩
  intro n l r c
  cases l
  cases n <;> rfl

/-- Claim C8: no operation of the program fails: the notifier and logger
operations always emit exactly their single line (no error value), a
service built from non-null dependencies never fails to send, and the run
of `main` produces output with no failure path. -/
theorem every_operation_succeeds :
    (∀ (n : Notifier) (m : String), (n.send m).length = 1) ∧
    (∀ (l : Logger) (i : String), (l.log i).length = 1) ∧
    (∀ (n : Notifier) (l : Logger) (r c : String),
      ((NotificationService.mk (some n) (some l)).sendNotification r c).isSome) ∧
    mainOutput.isSome := by
  refine ⟨?_, ?_, ?_, rfl⟩
  · intro n m; cases n <;> rfl
  · intro l i; cases l; rfl
  · intro n l r c; cases l; cases n <;> rfl

/-- Claim C9: for every notifier `n` and message `m`, the free function
`notifyUser n m` produces exactly the same output as `n.send m`. -/
theorem notifyUser_equiv (n : Notifier) (m : String) :
    notifyUser n m = n.send m := by
  rfl

/-- Claim C10: the second output line (the logger record) of
`sendNotification r c` does not depend on the content `c`: dropping the
first (dispatch) line yields identical traces for any two contents. -/
theorem log_line_independent_of_content (n : Notifier) (l : Logger)
    (r c1 c2 : String) :
    ((NotificationService.mk (some n) (some l)).sendNotification r c1).map
        (List.drop 1) =
      ((NotificationService.mk (some n) (some l)).sendNotification r c2).map
        (List.drop 1) := by
  cases l
  cases n
  all_goals
    simp [NotificationService.sendNotification, Notifier.send, Logger.log]

end NotificationSvc
